import Mathlib

/-!
Verification of the gitlab-job-helper client facade and presentation
adapter (src/gitlab_client.py, src/gitlab_helper.py) against its
natural-language specification.

The repository is a thin synchronous client: every facade operation is a
single call into the remote GitLab API (an external collaborator, reached
through the python-gitlab library).  We embed the remote API as a record
of abstract call-by-call behaviours (`Remote`): each field models one
remote endpoint and returns `Except Unit α` — `.ok` for a successful
response, `.error ()` for any transport/API failure (the Python code
catches all such failures with broad `except` clauses).

Console diagnostics (`console.print` of error messages) are modelled as an
explicit list of `Diag` values returned alongside each result, so that
"reported distinctly" claims are observable.

Python strings coming back from byte decoding are modelled as lists of
Unicode code points (`List Nat`), since `bytes.decode('utf-8',
errors='replace')` can produce any scalar value.
-/

/-- A GitLab pipeline as projected by the client (fields actually read by
the code: id, status, ref, sha, created_at). -/
structure Pipeline where
  id : Int
  status : String
  ref : String
  sha : String
  created_at : String
deriving DecidableEq, Repr

/-- A GitLab job as projected by the client (fields actually read:
id, stage, name, status). -/
structure Job where
  id : Int
  stage : String
  name : String
  status : String
deriving DecidableEq, Repr

/-- One `{'key': k, 'value': v}` record of the variables list built by
`create_pipeline` (src/gitlab_client.py line 85). -/
structure KV where
  key : String
  value : String
deriving DecidableEq, Repr

/-- The payload passed to `self.project.pipelines.create(...)`
(src/gitlab_client.py line 87): a ref and an optional variables list. -/
structure CreateParams where
  ref : String
  vars : Option (List KV)
deriving DecidableEq, Repr

/-- Abstract behaviour of the remote GitLab API for one project, one field
per endpoint the client calls.  `.error ()` stands for any exception the
underlying library raises (transport error, 404, auth failure, ...). -/
structure Remote where
  pipelinesList : Nat → Except Unit (List Pipeline)
  pipelinesGet : Int → Except Unit Pipeline
  jobsList : Int → Except Unit (List Job)
  jobsGet : Int → Except Unit Job
  jobTrace : Int → Except Unit (List Nat)
  pipelinesCreate : CreateParams → Except Unit Pipeline

/-- The error diagnostics the client prints to the console, one
constructor per distinct `console.print` error message in
src/gitlab_client.py. -/
inductive Diag where
  | failedGetPipelines
  | failedGetPipeline (id : Int)
  | failedCreatePipeline
  | failedGetJobs (id : Int)
  | failedGetJob (id : Int)
  | invalidJobId
  | failedGetJobLogs (id : Int)
deriving DecidableEq, Repr

/-- A value passed as a job id: the CLI passes ints, but `get_job` and
`get_job_logs` defend against string input via `int(job_id)`
(src/gitlab_client.py lines 108 and 121). -/
inductive PyVal where
  | int (n : Int)
  | str (s : String)
deriving DecidableEq, Repr

/-- Model of Python `int(s)` on a string: an optional sign followed by a
nonempty run of decimal digits parses to that integer; anything else
raises `ValueError`, modelled as `none`. -/
def parseNat (cs : List Char) : Option Nat :=
  if cs = [] then none
  else if cs.all (fun c => decide ('0' ≤ c) && decide (c ≤ '9')) then
    some (cs.foldl (fun a c => a * 10 + (c.toNat - 48)) 0)
  else none

/-- Model of Python `int(·)` applied to a job-id value: an int converts to
itself, a string is parsed (or raises `ValueError`, modelled as `none`). -/
def pyInt : PyVal → Option Int
  | .int n => some n
  | .str s =>
    match s.toList with
    | '-' :: rest => (parseNat rest).map (fun n => -(n : Int))
    | '+' :: rest => (parseNat rest).map (fun n => (n : Int))
    | cs => (parseNat cs).map (fun n => (n : Int))

/-- `GitLabClient.get_pipelines` (src/gitlab_client.py lines 59-65):
list pipelines with `per_page=limit`; on any error print a diagnostic and
return the empty list. -/
def get_pipelines (r : Remote) (limit : Nat) : List Pipeline × List Diag :=
  match r.pipelinesList limit with
  | .ok ps => (ps, [])
  | .error _ => ([], [.failedGetPipelines])

/-- `GitLabClient.get_pipeline` (src/gitlab_client.py lines 67-73):
fetch one pipeline by id; on any error print a diagnostic and return
`None`. -/
def get_pipeline (r : Remote) (pid : Int) : Option Pipeline × List Diag :=
  match r.pipelinesGet pid with
  | .ok p => (some p, [])
  | .error _ => (none, [.failedGetPipeline pid])

/-- `GitLabClient.get_latest_pipeline` (src/gitlab_client.py lines 75-78):
`pipelines = self.get_pipelines(limit=1); return pipelines[0] if
pipelines else None`. -/
def get_latest_pipeline (r : Remote) : Option Pipeline × List Diag :=
  let res := get_pipelines r 1
  (match res.1 with
   | [] => none
   | p :: _ => some p, res.2)

/-- The `variables_list` built by `GitLabClient.create_pipeline`
(src/gitlab_client.py lines 83-85): `None` unless `variables` is truthy
(a nonempty dict), else one `{'key': k, 'value': v}` record per item. -/
def build_variables_list (vars : Option (List (String × String))) :
    Option (List KV) :=
  match vars with
  | none => none
  | some vs => if vs.isEmpty then none else some (vs.map fun kv => ⟨kv.1, kv.2⟩)

/-- `GitLabClient.create_pipeline` (src/gitlab_client.py lines 80-91):
build the variables list, call `pipelines.create({'ref': ref,
'variables': variables_list})`; on any error print and return `None`. -/
def create_pipeline (r : Remote) (ref : String)
    (vars : Option (List (String × String))) :
    Option Pipeline × List Diag :=
  match r.pipelinesCreate ⟨ref, build_variables_list vars⟩ with
  | .ok p => (some p, [])
  | .error _ => (none, [.failedCreatePipeline])

/-- `GitLabClient.get_jobs` (src/gitlab_client.py lines 93-102): resolve
the pipeline via `get_pipeline`; if present, list its jobs, else return
`[]`; any error while listing prints a diagnostic and returns `[]`. -/
def get_jobs (r : Remote) (pid : Int) : List Job × List Diag :=
  let res := get_pipeline r pid
  match res.1 with
  | some p =>
    match r.jobsList p.id with
    | .ok js => (js, res.2)
    | .error _ => ([], res.2 ++ [.failedGetJobs pid])
  | none => ([], res.2)

/-- `GitLabClient.get_job` (src/gitlab_client.py lines 104-115):
`int(job_id)` — `ValueError` prints the invalid-id message and returns
`None`; then fetch the job, any other error prints the failed-get message
and returns `None`. -/
def get_job (r : Remote) (jobId : PyVal) : Option Job × List Diag :=
  match pyInt jobId with
  | none => (none, [.invalidJobId])
  | some n =>
    match r.jobsGet n with
    | .ok j => (some j, [])
    | .error _ => (none, [.failedGetJob n])

/-- Continuation byte of a UTF-8 sequence: 0x80..0xBF. -/
def isCont (b : Nat) : Bool := 0x80 ≤ b && b ≤ 0xBF

/-- Allowed second byte of a three-byte UTF-8 sequence headed by `b`
(well-formed table: E0 restricts to A0..BF, ED to 80..9F so surrogates
never decode). -/
def cont3Ok (b b1 : Nat) : Bool :=
  if b = 0xE0 then 0xA0 ≤ b1 && b1 ≤ 0xBF
  else if b = 0xED then 0x80 ≤ b1 && b1 ≤ 0x9F
  else isCont b1

/-- Allowed second byte of a four-byte UTF-8 sequence headed by `b`
(F0 restricts to 90..BF, F4 to 80..8F so values stay ≤ U+10FFFF). -/
def cont4Ok (b b1 : Nat) : Bool :=
  if b = 0xF0 then 0x90 ≤ b1 && b1 ≤ 0xBF
  else if b = 0xF4 then 0x80 ≤ b1 && b1 ≤ 0x8F
  else isCont b1

/-- Decode one code point from a lead byte `b` and the remaining input
(well-formed UTF-8 table).  On a malformed or truncated sequence it yields
the replacement character U+FFFD and resynchronises after the lead byte.
-/
def utf8Step (b : Nat) (rest : List Nat) : Nat × List Nat :=
  if b ≤ 0x7F then (b, rest)
  else if 0xC2 ≤ b && b ≤ 0xDF then
    match rest with
    | b1 :: rest1 =>
      if isCont b1 then ((b - 0xC0) * 0x40 + (b1 - 0x80), rest1)
      else (0xFFFD, b1 :: rest1)
    | [] => (0xFFFD, [])
  else if 0xE0 ≤ b && b ≤ 0xEF then
    match rest with
    | b1 :: b2 :: rest2 =>
      if cont3Ok b b1 && isCont b2 then
        ((b - 0xE0) * 0x1000 + (b1 - 0x80) * 0x40 + (b2 - 0x80), rest2)
      else (0xFFFD, b1 :: b2 :: rest2)
    | other => (0xFFFD, other)
  else if 0xF0 ≤ b && b ≤ 0xF4 then
    match rest with
    | b1 :: b2 :: b3 :: rest3 =>
      if cont4Ok b b1 && (isCont b2 && isCont b3) then
        ((b - 0xF0) * 0x40000 + (b1 - 0x80) * 0x1000 +
          (b2 - 0x80) * 0x40 + (b3 - 0x80), rest3)
      else (0xFFFD, b1 :: b2 :: b3 :: rest3)
    | other => (0xFFFD, other)
  else (0xFFFD, rest)

/-- `utf8Step` never lengthens the remaining input. -/
theorem utf8Step_length_le (b : Nat) (rest : List Nat) :
    (utf8Step b rest).2.length ≤ rest.length := by
  rcases rest with _ | ⟨b1, _ | ⟨b2, _ | ⟨b3, rest3⟩⟩⟩ <;>
    simp only [utf8Step] <;> split_ifs <;> (simp; try omega)

/-- Model of Python `bytes.decode('utf-8', errors='replace')`
(src/gitlab_client.py line 128): total decoder from bytes to code points;
every well-formed sequence decodes to its scalar value and every decoding
failure emits the replacement character U+FFFD and resynchronises after
the offending lead byte.  (CPython may replace a maximal invalid subpart
with a single U+FFFD where this model emits one per skipped lead byte;
both are total and mark every invalid sequence with U+FFFD.) -/
def utf8DecodeReplace : List Nat → List Nat
  | [] => []
  | b :: rest =>
    (utf8Step b rest).1 :: utf8DecodeReplace (utf8Step b rest).2
termination_by l => l.length
decreasing_by
  simp only [List.length_cons]
  exact Nat.lt_succ_of_le (utf8Step_length_le b rest)

/-- One strict decoding step (the behaviour of `bytes.decode('utf-8')`
with no error handler): `none` exactly where `utf8Step` would emit a
replacement. -/
def utf8StepStrict (b : Nat) (rest : List Nat) : Option (Nat × List Nat) :=
  if b ≤ 0x7F then some (b, rest)
  else if 0xC2 ≤ b && b ≤ 0xDF then
    match rest with
    | b1 :: rest1 =>
      if isCont b1 then some ((b - 0xC0) * 0x40 + (b1 - 0x80), rest1)
      else none
    | [] => none
  else if 0xE0 ≤ b && b ≤ 0xEF then
    match rest with
    | b1 :: b2 :: rest2 =>
      if cont3Ok b b1 && isCont b2 then
        some ((b - 0xE0) * 0x1000 + (b1 - 0x80) * 0x40 + (b2 - 0x80), rest2)
      else none
    | _ => none
  else if 0xF0 ≤ b && b ≤ 0xF4 then
    match rest with
    | b1 :: b2 :: b3 :: rest3 =>
      if cont4Ok b b1 && (isCont b2 && isCont b3) then
        some ((b - 0xF0) * 0x40000 + (b1 - 0x80) * 0x1000 +
          (b2 - 0x80) * 0x40 + (b3 - 0x80), rest3)
      else none
    | _ => none
  else none

/-- When the strict step succeeds, the replacing step agrees with it. -/
theorem utf8Step_of_strict (b : Nat) (rest : List Nat) (s : Nat × List Nat)
    (h : utf8StepStrict b rest = some s) : utf8Step b rest = s := by
  rcases rest with _ | ⟨b1, _ | ⟨b2, _ | ⟨b3, rest3⟩⟩⟩ <;>
    simp only [utf8Step, utf8StepStrict] at h ⊢ <;> split_ifs at h ⊢ <;>
    simp_all

/-- When the strict step fails, the replacing step emits U+FFFD. -/
theorem utf8Step_replacement_of_strict_none (b : Nat) (rest : List Nat)
    (h : utf8StepStrict b rest = none) : (utf8Step b rest).1 = 0xFFFD := by
  rcases rest with _ | ⟨b1, _ | ⟨b2, _ | ⟨b3, rest3⟩⟩⟩ <;>
    simp only [utf8Step, utf8StepStrict] at h ⊢ <;> split_ifs at h ⊢ <;>
    simp_all

/-- Strict decoder over a whole byte list: `none` exactly when the list is
not well-formed UTF-8. -/
def utf8DecodeStrict : List Nat → Option (List Nat)
  | [] => some []
  | b :: rest =>
    match h : utf8StepStrict b rest with
    | some s => (utf8DecodeStrict s.2).map (s.1 :: ·)
    | none => none
termination_by l => l.length
decreasing_by
  simp only [List.length_cons]
  have := utf8Step_length_le b rest
  rw [utf8Step_of_strict b rest s h] at this
  exact Nat.lt_succ_of_le this

/-- A Unicode scalar value: at most U+10FFFF and not a surrogate. -/
def isValidScalar (c : Nat) : Bool :=
  c ≤ 0x10FFFF && !(0xD800 ≤ c && c ≤ 0xDFFF)

/-- `GitLabClient.get_job_logs` (src/gitlab_client.py lines 117-136):
`int(job_id)` (ValueError prints the invalid-id message, returns `""`);
fetch the job via `get_job`; if absent return `""`; fetch its trace and
decode with `errors='replace'`; a trace failure prints a diagnostic and
returns `""`. -/
def get_job_logs (r : Remote) (jobId : PyVal) : List Nat × List Diag :=
  match pyInt jobId with
  | none => ([], [.invalidJobId])
  | some n =>
    let res := get_job r (.int n)
    match res.1 with
    | some job =>
      match r.jobTrace job.id with
      | .ok bs => (utf8DecodeReplace bs, res.2)
      | .error _ => ([], res.2 ++ [.failedGetJobLogs n])
    | none => ([], res.2)

/-- `GitLabClient._get_status_style` (src/gitlab_client.py lines 180-192):
`status_styles.get(status, 'white')` over the fixed dict. -/
def get_status_style (status : String) : String :=
  if status = "success" then "green"
  else if status = "failed" then "red"
  else if status = "running" then "blue"
  else if status = "pending" then "yellow"
  else if status = "canceled" then "red"
  else if status = "skipped" then "grey"
  else if status = "created" then "cyan"
  else if status = "manual" then "magenta"
  else "white"

/-- The status enum of the data model (spec §3, Pipeline/Job status). -/
def knownStatuses : List String :=
  ["created", "pending", "running", "success", "failed", "canceled",
   "skipped", "manual"]

/-- One line printed by the CLI log command: either plain text or the log
body itself (`print(logs)`, whose content is the decoded code points). -/
inductive OutLine where
  | text (s : String)
  | logBody (cps : List Nat)
deriving DecidableEq, Repr

/-- Header line of the raw log display (src/gitlab_helper.py line 139). -/
def rawLogHeader (jobId : Int) : String := s!"\n--- Logs for Job #{jobId} ---"

/-- Footer line of the raw log display (src/gitlab_helper.py line 141). -/
def rawLogFooter : String := "-----------------------------"

/-- The message printed when the fetched log text is empty
(src/gitlab_helper.py line 147). -/
def noLogsLine (jobId : Int) : String :=
  s!"[bold red]No logs found for job {jobId}[/bold red]"

/-- Raw-mode branch of the CLI `jobs logs` command
(src/gitlab_helper.py lines 136-147, `raw=True`): `if logs:` — a
nonempty log prints header, body, footer; an empty log (falsy string)
prints the no-logs message instead. -/
def renderJobLogsRaw (jobId : Int) (logs : List Nat) : List OutLine :=
  if logs.isEmpty then [.text (noLogsLine jobId)]
  else [.text (rawLogHeader jobId), .logBody logs, .text rawLogFooter]

/-- Most-recent-first order: GitLab assigns pipeline ids in increasing
creation order, so the service's default newest-first ordering is
non-increasing ids. -/
def mostRecentFirst : List Pipeline → Bool
  | [] => true
  | [_] => true
  | a :: b :: tl => decide (b.id ≤ a.id) && mostRecentFirst (b :: tl)

/-- Fixture job with a trace whose first byte is invalid UTF-8. -/
def jobA : Job := ⟨7, "build", "compile", "success"⟩

/-- Fixture job whose trace fetch fails. -/
def jobB : Job := ⟨9, "test", "unit", "failed"⟩

/-- Fixture pipeline (the newer of the two). -/
def pipeA : Pipeline := ⟨101, "success", "main", "deadbeefcafe", "2024-01-02T00:00:00Z"⟩

/-- Fixture pipeline (the older of the two). -/
def pipeB : Pipeline := ⟨100, "failed", "main", "0123456789ab", "2024-01-01T00:00:00Z"⟩

/-- A remote on which every call fails (service unreachable or nothing
found). -/
def rErr : Remote where
  pipelinesList := fun _ => .error ()
  pipelinesGet := fun _ => .error ()
  jobsList := fun _ => .error ()
  jobsGet := fun _ => .error ()
  jobTrace := fun _ => .error ()
  pipelinesCreate := fun _ => .error ()

/-- A small healthy remote honouring the `per_page` contract: two
pipelines newest first, job 7 with a partly invalid trace, job 9 whose
trace fetch fails. -/
def rOk : Remote where
  pipelinesList := fun n => .ok ([pipeA, pipeB].take n)
  pipelinesGet := fun pid => if pid = 101 then .ok pipeA else .error ()
  jobsList := fun pid => if pid = 101 then .ok [jobA, jobB] else .error ()
  jobsGet := fun jid =>
    if jid = 7 then .ok jobA else if jid = 9 then .ok jobB else .error ()
  jobTrace := fun jid => if jid = 7 then .ok [0xFF, 0x41] else .error ()
  pipelinesCreate := fun _ => .error ()

/-- Every code point one decoding step emits is a Unicode scalar. -/
theorem utf8Step_valid (b : Nat) (rest : List Nat) :
    isValidScalar (utf8Step b rest).1 = true := by
  rcases rest with _ | ⟨b1, _ | ⟨b2, _ | ⟨b3, rest3⟩⟩⟩ <;>
    simp only [utf8Step] <;> split_ifs <;>
    (try simp_all [isValidScalar, isCont, cont3Ok, cont4Ok]) <;>
    (try split_ifs at *) <;> (try simp_all) <;> omega

/-- Every code point the replacing decoder emits is a Unicode scalar. -/
theorem utf8DecodeReplace_valid :
    ∀ bs : List Nat, ∀ c ∈ utf8DecodeReplace bs, isValidScalar c = true := by
  intro bs
  induction bs using utf8DecodeReplace.induct with
  | case1 => intro c hc; simp [utf8DecodeReplace] at hc
  | case2 b rest ih =>
    intro c hc
    rw [utf8DecodeReplace] at hc
    rcases List.mem_cons.mp hc with h | h
    · simpa [h] using utf8Step_valid b rest
    · exact ih c h

/-- If the replacing decoder emits no replacement character at all, the
strict decoder succeeds and agrees with it. -/
theorem utf8DecodeStrict_of_no_replacement :
    ∀ bs : List Nat, 0xFFFD ∉ utf8DecodeReplace bs →
      utf8DecodeStrict bs = some (utf8DecodeReplace bs) := by
  intro bs
  induction bs using utf8DecodeReplace.induct with
  | case1 => intro _; simp [utf8DecodeReplace, utf8DecodeStrict]
  | case2 b rest ih =>
    intro hmem
    rw [utf8DecodeReplace] at hmem ⊢
    cases hs : utf8StepStrict b rest with
    | none =>
      exact absurd (utf8Step_replacement_of_strict_none b rest hs)
        (fun hf => hmem (hf ▸ List.mem_cons_self _ _))
    | some s =>
      have hstep : utf8Step b rest = s := utf8Step_of_strict b rest s hs
      have htl : 0xFFFD ∉ utf8DecodeReplace (utf8Step b rest).2 :=
        fun hf => hmem (List.mem_cons_of_mem _ hf)
      have hrec := ih htl
      rw [utf8DecodeStrict, hs]
      show (utf8DecodeStrict s.2).map (s.1 :: ·) =
        some ((utf8Step b rest).1 :: utf8DecodeReplace (utf8Step b rest).2)
      rw [hstep] at hrec ⊢
      rw [hrec]
      rfl

/-- C1: `_get_status_style` maps each known status to its documented fixed
style (success→green/positive, failed and canceled→red/negative,
running→blue/info, pending→yellow/warning, skipped→grey/muted,
created→cyan/accent, manual→magenta/highlight) and every string outside
the known enum to the default neutral style white, never raising. -/
theorem statusStyle_total_fixed_mapping :
    get_status_style "success" = "green" ∧
    get_status_style "failed" = "red" ∧
    get_status_style "canceled" = "red" ∧
    get_status_style "running" = "blue" ∧
    get_status_style "pending" = "yellow" ∧
    get_status_style "skipped" = "grey" ∧
    get_status_style "created" = "cyan" ∧
    get_status_style "manual" = "magenta" ∧
    ∀ s, s ∉ knownStatuses → get_status_style s = "white" := by
  refine ⟨rfl, rfl, rfl, rfl, rfl, rfl, rfl, rfl, ?_⟩
  intro s hs
  simp only [knownStatuses, List.mem_cons, List.not_mem_nil, or_false,
    not_or] at hs
  obtain ⟨h1, h2, h3, h4, h5, h6, h7, h8⟩ := hs
  simp [get_status_style, h1, h2, h3, h4, h5, h6, h7, h8]

/-- C1 witness: a status outside the enum gets the neutral style. -/
theorem statusStyle_total_fixed_mapping_witness :
    get_status_style "unknown_future" = "white" :=
  statusStyle_total_fixed_mapping.2.2.2.2.2.2.2.2 "unknown_future" (by decide)

/-- C2: a job id not convertible to an integer makes `get_job` and
`get_job_logs` report the distinct invalid-id diagnostic, observably
different from the not-found case for a valid id, which yields the same
absent/empty value but the failed-get diagnostic. -/
theorem invalid_id_reported_distinctly (r : Remote) (s : String)
    (hs : pyInt (.str s) = none) (n : Int) (hn : r.jobsGet n = .error ()) :
    get_job r (.str s) = (none, [.invalidJobId]) ∧
    get_job_logs r (.str s) = ([], [.invalidJobId]) ∧
    get_job r (.int n) = (none, [.failedGetJob n]) ∧
    get_job_logs r (.int n) = ([], [.failedGetJob n]) ∧
    (Diag.invalidJobId : Diag) ≠ Diag.failedGetJob n := by
  refine ⟨?_, ?_, ?_, ?_, by simp⟩
  · simp [get_job, hs]
  · simp [get_job_logs, hs]
  · simp [get_job, pyInt, hn]
  · simp [get_job_logs, get_job, pyInt, hn]

/-- C2 witness at a concrete remote: "abc" is not convertible, job 8 does
not exist. -/
theorem invalid_id_reported_distinctly_witness :
    get_job rOk (.str "abc") = (none, [.invalidJobId]) ∧
    get_job_logs rOk (.str "abc") = ([], [.invalidJobId]) ∧
    get_job rOk (.int 8) = (none, [.failedGetJob 8]) ∧
    get_job_logs rOk (.int 8) = ([], [.failedGetJob 8]) ∧
    (Diag.invalidJobId : Diag) ≠ Diag.failedGetJob 8 :=
  invalid_id_reported_distinctly rOk "abc" (by decide) 8 rfl

/-- C3: the variables list passed to the remote create call has exactly
one key/value record per mapping entry, each preserving key and value
unmodified, so mapping the records back recovers the input mapping. -/
theorem create_pipeline_variables_roundtrip (vs : List (String × String)) :
    ((build_variables_list (some vs)).getD []).length = vs.length ∧
    ((build_variables_list (some vs)).getD []).map
      (fun kvr => (kvr.key, kvr.value)) = vs := by
  cases vs with
  | nil => simp [build_variables_list]
  | cons kv tl => simp [build_variables_list, Function.comp_def, Prod.mk.eta]

/-- C4: `get_job_logs` collapses all three failure causes — invalid id,
absent job, failed trace fetch — to the same empty-string result instead
of propagating an error. -/
theorem job_logs_failures_collapse (r : Remote) (s : String) (n m : Int)
    (job : Job) (hs : pyInt (.str s) = none)
    (habs : r.jobsGet n = .error ())
    (hok : r.jobsGet m = .ok job)
    (htr : r.jobTrace job.id = .error ()) :
    (get_job_logs r (.str s)).1 = [] ∧
    (get_job_logs r (.int n)).1 = [] ∧
    (get_job_logs r (.int m)).1 = [] := by
  refine ⟨?_, ?_, ?_⟩
  · simp [get_job_logs, hs]
  · simp [get_job_logs, get_job, pyInt, habs]
  · simp [get_job_logs, get_job, pyInt, hok, htr]

/-- C4 witness: invalid id "abc", absent job 8, job 9 whose trace fetch
fails — all three give the empty string. -/
theorem job_logs_failures_collapse_witness :
    (get_job_logs rOk (.str "abc")).1 = [] ∧
    (get_job_logs rOk (.int 8)).1 = [] ∧
    (get_job_logs rOk (.int 9)).1 = [] :=
  job_logs_failures_collapse rOk "abc" 8 9 jobB (by decide) rfl rfl rfl

/-- C5: decoding a fetched job trace never fails: `get_job_logs` returns
exactly the replacing decode of the trace bytes, every emitted code point
is a valid Unicode scalar (a string is always returned), and any byte
list that is not well-formed UTF-8 is marked with the replacement
character U+FFFD. -/
theorem job_logs_decode_never_raises (bs : List Nat) (r : Remote) (n : Int)
    (job : Job) (hok : r.jobsGet n = .ok job)
    (htr : r.jobTrace job.id = .ok bs) :
    (get_job_logs r (.int n)).1 = utf8DecodeReplace bs ∧
    (∀ c ∈ utf8DecodeReplace bs, isValidScalar c = true) ∧
    (utf8DecodeStrict bs = none → 0xFFFD ∈ utf8DecodeReplace bs) := by
  refine ⟨?_, utf8DecodeReplace_valid bs, ?_⟩
  · simp [get_job_logs, get_job, pyInt, hok, htr]
  · intro hnone
    by_contra hmem
    rw [utf8DecodeStrict_of_no_replacement bs hmem] at hnone
    exact Option.noConfusion hnone

/-- C5 witness: job 7's trace [0xFF, 0x41] is invalid UTF-8, yet the log
is returned, decoded as [U+FFFD, U+0041]. -/
theorem job_logs_decode_never_raises_witness :
    (get_job_logs rOk (.int 7)).1 = utf8DecodeReplace [0xFF, 0x41] ∧
    (∀ c ∈ utf8DecodeReplace [0xFF, 0x41], isValidScalar c = true) ∧
    (utf8DecodeStrict [0xFF, 0x41] = none →
      0xFFFD ∈ utf8DecodeReplace [0xFF, 0x41]) :=
  job_logs_decode_never_raises [0xFF, 0x41] rOk 7 jobA rfl rfl

/-- C6: `get_latest_pipeline` is extensionally the head of
`get_pipelines(limit=1)` — the first pipeline when the sequence is
non-empty, `none` when it is empty — for every remote state, with the
same diagnostics. -/
theorem latest_pipeline_refines_head (r : Remote) :
    (get_latest_pipeline r).1 = (get_pipelines r 1).1.head? ∧
    (get_latest_pipeline r).2 = (get_pipelines r 1).2 := by
  refine ⟨?_, rfl⟩
  cases h : (get_pipelines r 1).1 <;> simp [get_latest_pipeline, h]

/-- C7: under the remote service's `per_page` contract (at most N
results, newest first), `get_pipelines` returns at most N pipelines in
most-recent-first order (also on failure, where it returns none). -/
theorem get_pipelines_respects_limit_and_order (r : Remote) (N : Nat)
    (h : ∀ ps, r.pipelinesList N = .ok ps →
      ps.length ≤ N ∧ mostRecentFirst ps = true) :
    (get_pipelines r N).1.length ≤ N ∧
    mostRecentFirst (get_pipelines r N).1 = true := by
  unfold get_pipelines
  cases hc : r.pipelinesList N with
  | ok ps => simpa using h ps hc
  | error e => simp [mostRecentFirst]

/-- C7 witness at the concrete remote, N = 1. -/
theorem get_pipelines_respects_limit_and_order_witness :
    (get_pipelines rOk 1).1.length ≤ 1 ∧
    mostRecentFirst (get_pipelines rOk 1).1 = true :=
  get_pipelines_respects_limit_and_order rOk 1 (by
    intro ps hps
    simp only [rOk] at hps
    cases hps
    exact ⟨by decide, by decide⟩)

/-- C8 counterexample: for a missing job the fetched log is the empty
string, but the raw-mode renderer then prints the no-logs message — not
the header/footer bracket lines with empty content between them, because
the empty string is falsy in `if logs:`. -/
theorem missing_job_raw_render_counterexample :
    (get_job_logs rErr (.int 9999)).1 = [] ∧
    renderJobLogsRaw 9999 (get_job_logs rErr (.int 9999)).1 ≠
      [.text (rawLogHeader 9999), .logBody [], .text rawLogFooter] := by
  have hempty : (get_job_logs rErr (.int 9999)).1 = [] := by
    simp [get_job_logs, get_job, pyInt, rErr]
  refine ⟨hempty, ?_⟩
  rw [hempty]
  simp [renderJobLogsRaw]

/-- C8 amended: `get_job_logs` on a job id that does not exist returns
the empty string (not an error), and the raw-mode renderer then prints
the single no-logs message line instead of the header/footer bracket
lines (the empty string is falsy, so the bracket branch is skipped). -/
theorem missing_job_raw_render_amended (r : Remote) (n : Int)
    (h : r.jobsGet n = .error ()) :
    (get_job_logs r (.int n)).1 = [] ∧
    renderJobLogsRaw n (get_job_logs r (.int n)).1 =
      [.text (noLogsLine n)] := by
  have hempty : (get_job_logs r (.int n)).1 = [] := by
    simp [get_job_logs, get_job, pyInt, h]
  exact ⟨hempty, by rw [hempty]; simp [renderJobLogsRaw]⟩

/-- C8 amended witness: job 9999 on the failing remote. -/
theorem missing_job_raw_render_amended_witness :
    (get_job_logs rErr (.int 9999)).1 = [] ∧
    renderJobLogsRaw 9999 (get_job_logs rErr (.int 9999)).1 =
      [.text (noLogsLine 9999)] :=
  missing_job_raw_render_amended rErr 9999 rfl

/-- C9: `get_jobs` resolves the pipeline first and collapses both failure
causes — pipeline not found (or failing to resolve) and a job-listing
failure — to the empty sequence instead of propagating the error. -/
theorem get_jobs_failures_collapse (r : Remote) (pid : Int)
    (h : r.pipelinesGet pid = .error () ∨
      ∃ p, r.pipelinesGet pid = .ok p ∧ r.jobsList p.id = .error ()) :
    (get_jobs r pid).1 = [] := by
  rcases h with h | ⟨p, hp, hj⟩
  · simp [get_jobs, get_pipeline, h]
  · simp [get_jobs, get_pipeline, hp, hj]

/-- C9 witness: a remote where the pipeline lookup fails. -/
theorem get_jobs_failures_collapse_witness :
    (get_jobs rErr 123).1 = [] :=
  get_jobs_failures_collapse rErr 123 (Or.inl rfl)

/-- C10: an empty variables mapping is falsy in Python, so
`create_pipeline` passes `variables = None` — byte-identical remote
request to calling it with variables omitted. -/
theorem create_pipeline_empty_vars_same_as_omitted (r : Remote)
    (ref : String) :
    build_variables_list (some []) = none ∧
    create_pipeline r ref (some []) = create_pipeline r ref none :=
  ⟨rfl, rfl⟩
